import Mathlib

/-!
Shallow embedding of ricanontherun/circuit-breaker (src/src/circuit.ts,
src/src/state.ts, src/options.ts).

Modelling conventions:
* JavaScript numbers appearing in the breaker logic (thresholds, counters,
  the half-open call rate and the values drawn from the injected random
  source) are only ever compared with `>=` and incremented by 1; every value
  relevant to the claims is a small non-negative integer, for which JS float
  arithmetic is exact, so they are embedded as `Nat`.
* The wrapped operation `fn` is a black box: each call attempt is supplied
  with the `Outcome` the operation would produce at those arguments
  (`ok v` when the promise resolves with `v`, `threw e` when it rejects /
  throws).  The breaker never inspects more than this (circuit.ts only reads
  `callResponse.ok` / `callResponse.response`).
* The injected random source `options.random` is modelled by passing the
  value that `options.random(1, 100)` would return (`draw`) to each call
  attempt; `shouldMakeHalfOpenCall` is the only consumer.
* `setTimeout` / `clearTimeout`: `halfOpenTimeoutHandle` is `null` or a
  handle in the source; `startClosedTimer` first clears any pending timer
  and then arms exactly one, and the timer callback fires at most once, so
  the handle is embedded as a `Bool` (`true` = one pending timer).  The
  timer firing is an explicit event (`timerFire`).
* `async` functions in circuit.ts never throw: the only `await` of foreign
  code is inside `safeCall`'s `try`/`catch`.  Hence `call` is embedded as a
  total function returning the value the promise resolves with (`Res`).
* `registerCleanupHandler` (process-signal cleanup) touches no breaker
  state and is outside every claim; it is not modelled.
-/

/-- src/src/state.ts: `enum CircuitState`.  The enum's own doc comments say
`OPEN`: "Circuit is open, calls are not made", `HALF_OPEN`: "permitting a
configurable percentage of calls", `CLOSED`: "Circuit is closed, all calls
are made". -/
inductive CircuitState where
  | OPEN
  | HALF_OPEN
  | CLOSED
deriving DecidableEq, BEq, Repr

/-- options.ts: `class CircuitOptions` with its field initializers as
defaults.  circuit.ts binds it with `import CircuitOptions from "./options"`
(a default import) and `options: CircuitOptions = {}` (all fields
optional), which only the default-export, optional-field variant of the
options module satisfies; that variant defaults `initialState` to
`CircuitState.OPEN`, and both committed test suites assert `isOpen`
immediately after default construction.  (A named-export options variant
with required fields kept in the repository defaults `initialState` to
`CLOSED`, but the current circuit.ts cannot compile against it.)  The
injected `random` generator is modelled by the `draw` argument of each call
attempt (see module comment), so it is not a field here.  There is no
`halfOpenReopenThreshold` option in the source. -/
structure CircuitOptions where
  openThreshold : Nat := 1
  closeThreshold : Nat := 1
  halfOpenTimeout : Nat := 60000
  halfOpenCallRate : Nat := 50
  initialState : CircuitState := CircuitState.OPEN
deriving DecidableEq, Repr

/-- circuit.ts: the `metrics` object literal and its three counters. -/
structure Metrics where
  consecutiveFailedCalls : Nat := 0
  consecutiveOkCalls : Nat := 0
  halfOpenCalls : Nat := 0
deriving DecidableEq, Repr

/-- The payload of the `state-change` event: `{from, to}` (`from` is a Lean
keyword, hence `fromState`/`toState`). -/
structure StateChange where
  fromState : CircuitState
  toState : CircuitState
deriving DecidableEq, Repr

/-- The mutable fields of `class CircuitBreaker`, with their field
initializers as defaults (`state = CircuitState.OPEN`,
`halfOpenTimeoutHandle = null`).  `events` records the emitted
`state-change` notifications in order (the `EventEmitter` side channel). -/
structure Breaker where
  state : CircuitState := CircuitState.OPEN
  options : CircuitOptions
  halfOpenTimeoutHandle : Bool := false
  metrics : Metrics := {}
  events : List StateChange := []
deriving DecidableEq, Repr

/-- A JavaScript `Error` value, identified by its message. -/
structure JsError where
  message : String
deriving DecidableEq, Repr

/-- circuit.ts line 7:
`const CLOSED_ERROR: Error = new Error("Circuit is closed, function not called");`
— a single module-level constant, shared by every rejection site. -/
def CLOSED_ERROR : JsError := { message := "Circuit is closed, function not called" }

/-- The outcome the wrapped operation produces for one invocation. -/
inductive Outcome (V E : Type) where
  | ok (v : V)
  | threw (e : E)
deriving DecidableEq, Repr

/-- Modelled from the spec: `src/response.ts` (class `CallResponse`) is not
among the provided sources; §4.2 of the spec describes the normalized
outcome (`Ok(value)` or `Failed(error)`).  Its shape is fixed by its uses in
circuit.ts: `new CallResponse()` starts with `ok` true and `response`/
`error` unset (`none` models `undefined`), and `safeCall` sets `ok = false`
and `error = e` on a catch, or `response = v` on success. -/
structure CallResponse (V E : Type) where
  ok : Bool := true
  response : Option V := none
  error : Option E := none
deriving DecidableEq, Repr

/-- The value the promise returned by `call` resolves with: either the
shared `CLOSED_ERROR` object (an `Error` resolved as a value, not a
rejection) or `callResponse.response` (which is `undefined` = `none` when
the operation threw). -/
inductive Res (V : Type) where
  | err (e : JsError)
  | value (v : Option V)
deriving DecidableEq, Repr

/-- circuit.ts `incrementFailed`. -/
def incrementFailed (b : Breaker) : Breaker :=
  { b with metrics := { b.metrics with
      consecutiveFailedCalls := b.metrics.consecutiveFailedCalls + 1
      consecutiveOkCalls := 0 } }

/-- circuit.ts `incrementSuccessful`. -/
def incrementSuccessful (b : Breaker) : Breaker :=
  { b with metrics := { b.metrics with
      consecutiveFailedCalls := 0
      consecutiveOkCalls := b.metrics.consecutiveOkCalls + 1 } }

/-- circuit.ts `resetMetrics`: zeroes only the two consecutive counters
(`halfOpenCalls` is untouched). -/
def resetMetrics (b : Breaker) : Breaker :=
  { b with metrics := { b.metrics with
      consecutiveFailedCalls := 0
      consecutiveOkCalls := 0 } }

/-- circuit.ts getter `isOpen`. -/
def isOpen (b : Breaker) : Bool := b.state == CircuitState.OPEN

/-- circuit.ts getter `isHalfOpen`. -/
def isHalfOpen (b : Breaker) : Bool := b.state == CircuitState.HALF_OPEN

/-- circuit.ts getter `isClosed`. -/
def isClosed (b : Breaker) : Bool := b.state == CircuitState.CLOSED

/-- circuit.ts getter `shouldOpen`:
`metrics.consecutiveOkCalls >= options.openThreshold`. -/
def shouldOpen (b : Breaker) : Bool :=
  decide (b.metrics.consecutiveOkCalls ≥ b.options.openThreshold)

/-- circuit.ts getter `shouldClose`:
`metrics.consecutiveFailedCalls >= options.closeThreshold`. -/
def shouldClose (b : Breaker) : Bool :=
  decide (b.metrics.consecutiveFailedCalls ≥ b.options.closeThreshold)

/-- circuit.ts getter `shouldMakeHalfOpenCall`:
`options.random(1, 100) >= options.halfOpenCallRate`, with `draw` the value
returned by the injected random source for the range `(1, 100)`. -/
def shouldMakeHalfOpenCall (b : Breaker) (draw : Nat) : Bool :=
  decide (draw ≥ b.options.halfOpenCallRate)

/-- circuit.ts `startClosedTimer`: `clearTimeout` on the old handle, then
`setTimeout` a fresh transition-to-`HALF_OPEN` callback — net effect on the
handle model: exactly one pending timer. -/
def startClosedTimer (b : Breaker) : Breaker :=
  { b with halfOpenTimeoutHandle := true }

/-- circuit.ts `setState`: records `from`, assigns the new state, arms the
timer when the new state is `CLOSED`, resets the metrics, and emits a
`state-change {from, to}` event — unconditionally, with no `from !== to`
guard. -/
def setState (b : Breaker) (toS : CircuitState) : Breaker :=
  let fromS := b.state
  let b1 : Breaker := { b with state := toS }
  let b2 : Breaker := if isClosed b1 then startClosedTimer b1 else b1
  let b3 : Breaker := resetMetrics b2
  { b3 with events := b3.events ++ [{ fromState := fromS, toState := toS }] }

/-- The `setTimeout` callback installed by `startClosedTimer` firing:
`setState(CircuitState.HALF_OPEN)` then `halfOpenTimeoutHandle = null`.
Only applicable while a timer is pending. -/
def timerFire (b : Breaker) : Breaker :=
  if b.halfOpenTimeoutHandle then
    let b1 := setState b CircuitState.HALF_OPEN
    { b1 with halfOpenTimeoutHandle := false }
  else b

/-- circuit.ts constructor: merges the user options over
`defaultCircuitOptions` (modelled by `CircuitOptions` field defaults) and
runs `setState(options.initialState)` on the field-initialized instance
(`state = OPEN`, no timer, zero metrics, no events). -/
def mkCircuitBreaker (options : CircuitOptions) : Breaker :=
  setState { options := options } options.initialState

/-- circuit.ts `safeCall`: one invocation of the wrapped operation inside
`try`/`catch`.  On success `response.response` is set; on a throw the
assignment never happens (`response` stays `undefined`), `ok` becomes
`false` and `error` records the thrown value. -/
def safeCall {V E : Type} (o : Outcome V E) : CallResponse V E :=
  match o with
  | Outcome.ok v => { response := some v }
  | Outcome.threw e => { ok := false, error := some e }

/-- circuit.ts `attemptCall` (the `OPEN`-state path): one `safeCall`; on a
failed response increment the failure counter and, when `shouldClose`,
transition to `HALF_OPEN` and resolve with `CLOSED_ERROR`; otherwise
resolve with `callResponse.response`.  A successful response updates
nothing. -/
def attemptCall {V E : Type} (b : Breaker) (o : Outcome V E) : Res V × Breaker :=
  let callResponse := safeCall o
  if !callResponse.ok then
    let b1 := incrementFailed b
    if shouldClose b1 then
      (Res.err CLOSED_ERROR, setState b1 CircuitState.HALF_OPEN)
    else
      (Res.value callResponse.response, b1)
  else
    (Res.value callResponse.response, b)

/-- circuit.ts `attemptHalfOpenCall`: bump `halfOpenCalls`, one `safeCall`;
a failure increments the failure counter and, when `shouldClose`,
transitions to `CLOSED` resolving with `CLOSED_ERROR`; a success increments
the success counter and, when `shouldOpen`, transitions to `OPEN`; in the
remaining cases resolve with `callResponse.response`. -/
def attemptHalfOpenCall {V E : Type} (b : Breaker) (o : Outcome V E) : Res V × Breaker :=
  let b0 : Breaker := { b with metrics := { b.metrics with
      halfOpenCalls := b.metrics.halfOpenCalls + 1 } }
  let callResponse := safeCall o
  if !callResponse.ok then
    let b1 := incrementFailed b0
    if shouldClose b1 then
      (Res.err CLOSED_ERROR, setState b1 CircuitState.CLOSED)
    else
      (Res.value callResponse.response, b1)
  else
    let b1 := incrementSuccessful b0
    if shouldOpen b1 then
      (Res.value callResponse.response, setState b1 CircuitState.OPEN)
    else
      (Res.value callResponse.response, b1)

/-- circuit.ts `call` (lines 38–47): in state `CLOSED` resolve immediately
with `CLOSED_ERROR`; in `HALF_OPEN` run `attemptHalfOpenCall` when
`shouldMakeHalfOpenCall`, else resolve with `CLOSED_ERROR`; in `OPEN` run
`attemptCall`. -/
def call {V E : Type} (b : Breaker) (draw : Nat) (o : Outcome V E) : Res V × Breaker :=
  match b.state with
  | CircuitState.CLOSED => (Res.err CLOSED_ERROR, b)
  | CircuitState.HALF_OPEN =>
      if shouldMakeHalfOpenCall b draw then attemptHalfOpenCall b o
      else (Res.err CLOSED_ERROR, b)
  | CircuitState.OPEN => attemptCall b o

/-- Whether `call` reaches `safeCall` (i.e. the wrapped operation is
invoked): a direct transcription of `call`'s branch structure — `safeCall`
is reached exactly on the `attemptCall` / `attemptHalfOpenCall` paths, and
each of those invokes the operation exactly once. -/
def callInvokesOp (b : Breaker) (draw : Nat) : Bool :=
  match b.state with
  | CircuitState.CLOSED => false
  | CircuitState.HALF_OPEN => shouldMakeHalfOpenCall b draw
  | CircuitState.OPEN => true

/-- circuit.ts `callOrDefault` (lines 49–60): pops the last argument as the
default (`none` models the no-argument case, where `def` stays `null`);
returns it when `isClosed`, otherwise delegates to `call`.  (The source
passes the remaining argument array un-spread to `this.call(args)`; the
operation's behaviour at whatever arguments it receives is already abstracted
into `o`.) -/
def callOrDefault {V E : Type} (b : Breaker) (draw : Nat) (o : Outcome V E)
    (defVal : Option V) : Res V × Breaker :=
  if isClosed b then (Res.value defVal, b)
  else call b draw o

/-- One externally triggered step of the breaker: a `call` attempt (with
the operation outcome and random draw it would observe), a `callOrDefault`
attempt, or the pending recovery timer firing. -/
inductive Ev (V E : Type) where
  | callEv (draw : Nat) (o : Outcome V E)
  | callOrDefaultEv (draw : Nat) (o : Outcome V E) (defVal : Option V)
  | timerEv
deriving DecidableEq, Repr

/-- State reached after one event. -/
def step {V E : Type} (b : Breaker) (e : Ev V E) : Breaker :=
  match e with
  | Ev.callEv draw o => (call b draw o).2
  | Ev.callOrDefaultEv draw o defVal => (callOrDefault b draw o defVal).2
  | Ev.timerEv => timerFire b

/-- State reached after a sequence of events. -/
def run {V E : Type} (b : Breaker) (evs : List (Ev V E)) : Breaker :=
  evs.foldl step b

/-! ## Theorems settling the claims -/

/-- Claim C1 (code_bug evaluation).  The claim says a `Closed` breaker lets
every attempt reach the wrapped operation and an `Open` breaker rejects
every attempt without invoking it.  The code does the exact opposite of
what its own README and `state.ts` enum comments document: in a breaker
constructed in state `CLOSED`, `call` never invokes the operation and
resolves with `CLOSED_ERROR` leaving the breaker untouched, for every
outcome and draw, while in a breaker constructed in state `OPEN` every
call reaches the operation and a successful outcome's value is returned. -/
theorem c1_state_admission_inverted (o : Outcome Nat Nat) (draw : Nat) :
    call (mkCircuitBreaker { initialState := CircuitState.CLOSED }) draw o
      = (Res.err CLOSED_ERROR, mkCircuitBreaker { initialState := CircuitState.CLOSED })
  ∧ callInvokesOp (mkCircuitBreaker { initialState := CircuitState.CLOSED }) draw = false
  ∧ callInvokesOp (mkCircuitBreaker { initialState := CircuitState.OPEN }) draw = true
  ∧ (call (mkCircuitBreaker { initialState := CircuitState.OPEN }) draw
      (Outcome.ok (5 : Nat) : Outcome Nat Nat)).1 = Res.value (some 5) :=
  ⟨rfl, rfl, rfl, rfl⟩

/-- Claim C2 (code_bug evaluation).  The claim says that while `Closed`,
`consecutiveFailures` reaching `openThreshold` trips the breaker to `Open`,
which then rejects every call until the timer fires.  In the code the
admit-all state is `OPEN`, its failure trip is gated by `closeThreshold`
(not `openThreshold`), and it targets `HALF_OPEN` (not the blocking state):
with `openThreshold = 5`, `closeThreshold = 1`, a single failed call moves
`OPEN` to `HALF_OPEN`, and the resulting breaker still admits a sampled
call (draw 100) to the operation instead of rejecting everything. -/
theorem c2_failure_trip_targets_half_open :
    (mkCircuitBreaker { initialState := CircuitState.OPEN, openThreshold := 5 }).metrics.consecutiveFailedCalls = 0
  ∧ (call (mkCircuitBreaker { initialState := CircuitState.OPEN, openThreshold := 5 }) 1
      (Outcome.threw (0 : Nat) : Outcome Nat Nat)).2.state = CircuitState.HALF_OPEN
  ∧ callInvokesOp ((call (mkCircuitBreaker { initialState := CircuitState.OPEN, openThreshold := 5 }) 1
      (Outcome.threw (0 : Nat) : Outcome Nat Nat)).2) 100 = true :=
  ⟨rfl, rfl, rfl⟩

/-- Claim C3 (code_bug evaluation).  The claim says a Half-Open breaker
moves to `Closed` after `closeThreshold` consecutive admitted successes and
to `Open` after threshold-many consecutive admitted failures.  The code
swaps both directions (as `options.ts` doc comments and the README
contradicting it show): with both thresholds 1, one admitted success
(draw 100 is admitted) moves `HALF_OPEN` to `OPEN`, and one admitted
failure moves it to `CLOSED`; successes are gated by `openThreshold` via
`shouldOpen` and failures by `closeThreshold` via `shouldClose`, and no
`halfOpenReopenThreshold` option exists. -/
theorem c3_half_open_threshold_roles_swapped :
    shouldMakeHalfOpenCall (mkCircuitBreaker { initialState := CircuitState.HALF_OPEN }) 100 = true
  ∧ (call (mkCircuitBreaker { initialState := CircuitState.HALF_OPEN }) 100
      (Outcome.ok (5 : Nat) : Outcome Nat Nat)).2.state = CircuitState.OPEN
  ∧ (call (mkCircuitBreaker { initialState := CircuitState.HALF_OPEN }) 100
      (Outcome.threw (0 : Nat) : Outcome Nat Nat)).2.state = CircuitState.CLOSED :=
  ⟨rfl, rfl, rfl⟩

/-- Claim C4 (code_bug evaluation).  The claim says `call` fails with a
`BreakerOpenRejected` error when blocking, with a distinguishable
`BreakerHalfOpenRejected` error when a Half-Open attempt is not sampled in,
and otherwise propagates the operation's failure.  In the code both
rejection kinds resolve (never reject) with the one shared `CLOSED_ERROR`
value — indistinguishable — and an admitted operation failure that crosses
no threshold resolves with `callResponse.response` (`undefined`), never
propagating the operation's error: the repository's own tests expect two
different thrown messages and get neither. -/
theorem c4_rejections_share_one_error_value :
    (call (mkCircuitBreaker { initialState := CircuitState.HALF_OPEN }) 49
      (Outcome.ok (5 : Nat) : Outcome Nat Nat)).1 = Res.err CLOSED_ERROR
  ∧ (call (mkCircuitBreaker { initialState := CircuitState.CLOSED }) 1
      (Outcome.ok (5 : Nat) : Outcome Nat Nat)).1 = Res.err CLOSED_ERROR
  ∧ (call (mkCircuitBreaker { initialState := CircuitState.OPEN, closeThreshold := 2 }) 1
      (Outcome.threw (0 : Nat) : Outcome Nat Nat)).1 = Res.value none :=
  ⟨rfl, rfl, rfl⟩

/-- Claim C5 (code_bug evaluation).  The claim says the Half-Open admission
comparison makes `halfOpenCallRate = 100` admit every attempt and
`halfOpenCallRate = 0` admit none.  The code admits when
`draw >= halfOpenCallRate`, so with rate 100 the draw 50 is rejected (and
`call` resolves with `CLOSED_ERROR`), while with rate 0 the draw 1 is
admitted and the operation is invoked — the opposite of the claimed
endpoints and of the `options.ts` comment calling the rate "the percentage
of calls allowed to be made". -/
theorem c5_half_open_admission_direction_inverted :
    shouldMakeHalfOpenCall (mkCircuitBreaker { initialState := CircuitState.HALF_OPEN, halfOpenCallRate := 100 }) 50 = false
  ∧ (call (mkCircuitBreaker { initialState := CircuitState.HALF_OPEN, halfOpenCallRate := 100 }) 50
      (Outcome.ok (5 : Nat) : Outcome Nat Nat)).1 = Res.err CLOSED_ERROR
  ∧ shouldMakeHalfOpenCall (mkCircuitBreaker { initialState := CircuitState.HALF_OPEN, halfOpenCallRate := 0 }) 1 = true
  ∧ callInvokesOp (mkCircuitBreaker { initialState := CircuitState.HALF_OPEN, halfOpenCallRate := 0 }) 1 = true :=
  ⟨rfl, rfl, rfl, rfl⟩

/-- Claim C6 (code_bug evaluation).  The claim says exactly one pending
recovery timer exists if and only if the state is `Open`.  In the code the
timer is armed on entering `CLOSED` (`setState` calls `startClosedTimer`
when `isClosed`): a breaker constructed with `initialState = CLOSED` has a
pending timer while not `OPEN`, and a breaker constructed in `OPEN` (the
default) has none — both directions of the claimed equivalence fail on
freshly constructed (hence reachable) breakers. -/
theorem c6_timer_pending_iff_closed_not_open :
    (mkCircuitBreaker { initialState := CircuitState.CLOSED }).state = CircuitState.CLOSED
  ∧ (mkCircuitBreaker { initialState := CircuitState.CLOSED }).halfOpenTimeoutHandle = true
  ∧ (mkCircuitBreaker { initialState := CircuitState.OPEN }).state = CircuitState.OPEN
  ∧ (mkCircuitBreaker { initialState := CircuitState.OPEN }).halfOpenTimeoutHandle = false :=
  ⟨rfl, rfl, rfl, rfl⟩

/-- Claim C7 (code_bug evaluation).  The claim says `callOrDefault` returns
the caller-supplied fallback on any rejection or operation failure.  In the
code the fallback is returned only in state `CLOSED`: a Half-Open attempt
that is not sampled in (draw 49 against rate 50) resolves with the shared
`CLOSED_ERROR` value instead of the fallback 3 (the repository's own test
expects 3), and an admitted operation failure that crosses no threshold
resolves with `undefined` instead of the fallback 7. -/
theorem c7_callOrDefault_returns_error_not_fallback :
    callOrDefault (mkCircuitBreaker { initialState := CircuitState.HALF_OPEN }) 49
      (Outcome.ok (1 : Nat) : Outcome Nat Nat) (some 3)
      = (Res.err CLOSED_ERROR, mkCircuitBreaker { initialState := CircuitState.HALF_OPEN })
  ∧ (callOrDefault (mkCircuitBreaker { initialState := CircuitState.OPEN, closeThreshold := 2 }) 1
      (Outcome.threw (0 : Nat) : Outcome Nat Nat) (some 7)).1 = Res.value none :=
  ⟨rfl, rfl⟩

/-- Claim C9 (code_bug evaluation).  The claim says every successful
attempt in the admit-all state resets `consecutiveFailures` to 0, so a
failure chain cannot span a success.  In the code's admit-all state `OPEN`,
`attemptCall` has no success branch at all (`incrementSuccessful` is never
reached there): with `closeThreshold = 2`, after the sequence fail, success
the counter still reads 1 — not 0 — and a further failure trips the breaker
to `HALF_OPEN` even though the two failures were separated by a success. -/
theorem c9_success_does_not_reset_failures :
    (run (mkCircuitBreaker { initialState := CircuitState.OPEN, closeThreshold := 2 })
      [Ev.callEv 1 (Outcome.threw (0 : Nat) : Outcome Nat Nat),
       Ev.callEv 1 (Outcome.ok 5)]).metrics.consecutiveFailedCalls = 1
  ∧ (run (mkCircuitBreaker { initialState := CircuitState.OPEN, closeThreshold := 2 })
      [Ev.callEv 1 (Outcome.threw (0 : Nat) : Outcome Nat Nat),
       Ev.callEv 1 (Outcome.ok 5)]).state = CircuitState.OPEN
  ∧ (run (mkCircuitBreaker { initialState := CircuitState.OPEN, closeThreshold := 2 })
      [Ev.callEv 1 (Outcome.threw (0 : Nat) : Outcome Nat Nat),
       Ev.callEv 1 (Outcome.ok 5),
       Ev.callEv 1 (Outcome.threw 0)]).state = CircuitState.HALF_OPEN :=
  ⟨rfl, rfl, rfl⟩

/-- Claim C8 counterexample.  The claim says a `state-change` notification
is never emitted when the new state equals the old one, including the
initial state assignment at construction.  Constructing a breaker with
`initialState = OPEN` (the value the `state` field is initialized with)
emits exactly one notification whose `fromState` equals its `toState`. -/
theorem c8_noop_emission_at_construction :
    (mkCircuitBreaker { initialState := CircuitState.OPEN }).events
      = [{ fromState := CircuitState.OPEN, toState := CircuitState.OPEN }] :=
  rfl

/-- Claim C8 as amended: a `state-change` notification is emitted exactly
once per `setState` call — one `{from, to}` event is appended whether or
not the new state differs from the old; no suppression of no-op
transitions exists. -/
theorem c8_state_change_emitted_per_setState (b : Breaker) (t : CircuitState) :
    (setState b t).events = b.events ++ [{ fromState := b.state, toState := t }] := by
  cases t <;> rfl

/-- Claim C10: for every breaker state and wrapped-operation outcome, the
promise returned by `call` resolves and never rejects (the embedding of
`call` is a total function into resolution values `Res`, faithful to the
source, whose only `await` of foreign code sits inside `safeCall`'s
`try`/`catch`): a blocked call — state `CLOSED`, or state `HALF_OPEN` with
the draw not sampled in — resolves with the single shared `CLOSED_ERROR`
value (message "Circuit is closed, function not called") leaving the
breaker unchanged, and an admitted attempt whose operation throws without
crossing the `closeThreshold` failure threshold resolves with the recorded
`callResponse.response` (`undefined`, i.e. `Res.value none`) rather than
rejecting with the operation's error. -/
theorem c10_call_always_resolves {V E : Type} (b : Breaker) (draw : Nat)
    (o : Outcome V E) (e : E) :
    (b.state = CircuitState.CLOSED → call b draw o = (Res.err CLOSED_ERROR, b))
  ∧ (b.state = CircuitState.HALF_OPEN → shouldMakeHalfOpenCall b draw = false →
      call b draw o = (Res.err CLOSED_ERROR, b))
  ∧ (b.state = CircuitState.OPEN →
      b.metrics.consecutiveFailedCalls + 1 < b.options.closeThreshold →
      (call b draw (Outcome.threw e : Outcome V E)).1 = Res.value none)
  ∧ (b.state = CircuitState.HALF_OPEN → shouldMakeHalfOpenCall b draw = true →
      b.metrics.consecutiveFailedCalls + 1 < b.options.closeThreshold →
      (call b draw (Outcome.threw e : Outcome V E)).1 = Res.value none) := by
  refine ⟨?_, ?_, ?_, ?_⟩
  · intro h
    simp [call, h]
  · intro h hadm
    simp [call, h, hadm]
  · intro h h2
    have hs : ¬ (b.options.closeThreshold ≤ b.metrics.consecutiveFailedCalls + 1) := by
      omega
    simp [call, h, attemptCall, safeCall, incrementFailed, shouldClose, hs]
  · intro h hadm h2
    have hs : ¬ (b.options.closeThreshold ≤ b.metrics.consecutiveFailedCalls + 1) := by
      omega
    simp [call, h, hadm, attemptHalfOpenCall, safeCall, incrementFailed, shouldClose, hs]

/-- Witness for C10: the theorem applied at concrete breakers — a breaker
constructed in `CLOSED`, a `HALF_OPEN` breaker with a rejected draw 49, an
`OPEN` breaker with `closeThreshold = 2` and a throwing operation, and a
`HALF_OPEN` breaker with an admitted draw 100 and a throwing operation. -/
theorem c10_call_always_resolves_witness :
    call (mkCircuitBreaker { initialState := CircuitState.CLOSED }) 1
      (Outcome.ok (5 : Nat) : Outcome Nat Nat)
      = (Res.err CLOSED_ERROR, mkCircuitBreaker { initialState := CircuitState.CLOSED })
  ∧ call (mkCircuitBreaker { initialState := CircuitState.HALF_OPEN }) 49
      (Outcome.ok (5 : Nat) : Outcome Nat Nat)
      = (Res.err CLOSED_ERROR, mkCircuitBreaker { initialState := CircuitState.HALF_OPEN })
  ∧ (call (mkCircuitBreaker { initialState := CircuitState.OPEN, closeThreshold := 2 }) 1
      (Outcome.threw (0 : Nat) : Outcome Nat Nat)).1 = Res.value none
  ∧ (call (mkCircuitBreaker { initialState := CircuitState.HALF_OPEN, closeThreshold := 2 }) 100
      (Outcome.threw (0 : Nat) : Outcome Nat Nat)).1 = Res.value none := by
  refine ⟨?_, ?_, ?_, ?_⟩
  · exact (c10_call_always_resolves
      (mkCircuitBreaker { initialState := CircuitState.CLOSED }) 1
      (Outcome.ok (5 : Nat) : Outcome Nat Nat) 0).1 (by decide)
  · exact (c10_call_always_resolves
      (mkCircuitBreaker { initialState := CircuitState.HALF_OPEN }) 49
      (Outcome.ok (5 : Nat) : Outcome Nat Nat) 0).2.1 (by decide) (by decide)
  · exact (c10_call_always_resolves
      (mkCircuitBreaker { initialState := CircuitState.OPEN, closeThreshold := 2 }) 1
      (Outcome.ok (5 : Nat) : Outcome Nat Nat) 0).2.2.1 (by decide) (by decide)
  · exact (c10_call_always_resolves
      (mkCircuitBreaker { initialState := CircuitState.HALF_OPEN, closeThreshold := 2 }) 100
      (Outcome.ok (5 : Nat) : Outcome Nat Nat) 0).2.2.2 (by decide) (by decide) (by decide)
